import Mathlib

/-!
Verification of the pdf-compressor repository core (src/compressor.py and
src/utils.py) against its natural-language specification.

The embedding models the pure decision logic directly as Lean functions and
models the effectful parts (subprocess runs, PDF parsing, file writes) by
explicit environment parameters: each external interaction's outcome is an
input to the embedded function, and file-system effects are returned as data.
Machine integers are Nat/Int (Python integers are unbounded); Python floats
are modelled as exact rationals plus an explicit infinity marker, which is
exact for every value the claims inspect.
-/

namespace PdfCompressor

/-- The four compression method identifiers used by compressor.py. -/
inductive Method
  | ghostscript
  | qpdf
  | pikepdf
  | pypdf
deriving DecidableEq, Repr

/-- The Python string name of a method, as stored in result dicts. -/
def Method.pyName : Method → String
  | .ghostscript => "ghostscript"
  | .qpdf => "qpdf"
  | .pikepdf => "pikepdf"
  | .pypdf => "pypdf"

/-- The availability map built by PDFCompressor._check_available_tools. -/
structure ToolAvailability where
  ghostscript : Bool
  qpdf : Bool
  pikepdf : Bool
  pypdf : Bool
deriving DecidableEq, Repr

/-- Embeds PDFCompressor._check_available_tools: the two subprocess probes
(gs --version, qpdf --version) are environment inputs (true iff the probe ran
and exited 0; false on non-zero exit, missing binary or timeout), and the two
in-process library backends are hard-coded available. -/
def check_available_tools (gs_probe qpdf_probe : Bool) : ToolAvailability :=
  { ghostscript := gs_probe
    qpdf := qpdf_probe
    pikepdf := true
    pypdf := true }

/-- Either the value a lazy PDF object access yields, or a raise from a
damaged object. _analyze_pdf touches such objects inside its try blocks, so
an access can raise after earlier statements already mutated the analysis
dict; modelling each access outcome keeps those partial mutations visible. -/
inductive Outcome (α : Type)
  | val (a : α)
  | raise
deriving DecidableEq, Repr

/-- One page as the pikepdf scan of _analyze_pdf observes it: image_scan is
the combined result of the Resources lookup, the XObject walk and the
subtype tests on that page (true iff an image XObject is found); annots_scan
is the result of the Annots membership test. Either access can raise. -/
structure PikePage where
  image_scan : Outcome Bool
  annots_scan : Outcome Bool
deriving DecidableEq, Repr

/-- A pikepdf document whose open succeeded: its page list and the outcome
of the AcroForm membership test on the document root. -/
structure PikeOpened where
  pages : List PikePage
  root_acroform : Outcome Bool
deriving DecidableEq, Repr

/-- A pypdf reader whose construction succeeded: per page, the outcome of
the reduced image-only check, plus the is_encrypted attribute. -/
structure PyOpened where
  pages : List (Outcome Bool)
  is_encrypted : Bool
deriving DecidableEq, Repr

/-- The analysis dict produced by PDFCompressor._analyze_pdf. -/
structure PdfAnalysis where
  pages : Nat
  has_images : Bool
  has_forms : Bool
  has_annots : Bool
  encrypted : Bool
  file_size : Nat
deriving DecidableEq, Repr

/-- The pikepdf page loop of _analyze_pdf: per page the image check may set
has_images, then the annots check may set has_annots; a raise aborts the
loop but keeps every mutation already made. The Bool reports whether the
loop finished without raising. -/
def scan_pike_pages : List PikePage → PdfAnalysis → PdfAnalysis × Bool
  | [], a => (a, true)
  | p :: ps, a =>
      match p.image_scan with
      | .raise => (a, false)
      | .val found =>
          let a1 := if found then { a with has_images := true } else a
          match p.annots_scan with
          | .raise => (a1, false)
          | .val ann =>
              scan_pike_pages ps (if ann then { a1 with has_annots := true } else a1)

/-- The pikepdf arm of _analyze_pdf: a failed open mutates nothing; after a
successful open the page count and encrypted flag are written first, then
the first five pages are scanned, then the root is tested for AcroForm. The
Bool reports whether the whole arm ran without raising; on a raise the
mutations made so far persist in the returned analysis. -/
def pike_attempt (doc : Option PikeOpened) (a : PdfAnalysis) :
    PdfAnalysis × Bool :=
  match doc with
  | none => (a, false)
  | some d =>
      let a1 := { a with pages := d.pages.length, encrypted := false }
      let s := scan_pike_pages (d.pages.take (min 5 d.pages.length)) a1
      if s.2 then
        match d.root_acroform with
        | .raise => (s.1, false)
        | .val hasForm =>
            (if hasForm then { s.1 with has_forms := true } else s.1, true)
      else s

/-- The pypdf page loop of _analyze_pdf: the reduced image-only check,
breaking at the first page with an image; a raise aborts but keeps prior
mutations. -/
def scan_py_pages : List (Outcome Bool) → PdfAnalysis → PdfAnalysis × Bool
  | [], a => (a, true)
  | o :: os, a =>
      match o with
      | .raise => (a, false)
      | .val true => ({ a with has_images := true }, true)
      | .val false => scan_py_pages os a

/-- The pypdf arm of _analyze_pdf, run on the analysis exactly as the failed
pikepdf arm left it: a failed reader construction mutates nothing; otherwise
the page count and encrypted flag are written, then the first three pages
get the image-only scan. Its own raise is swallowed by the inner except. -/
def py_attempt (doc : Option PyOpened) (a : PdfAnalysis) :
    PdfAnalysis × Bool :=
  match doc with
  | none => (a, false)
  | some d =>
      let a1 := { a with pages := d.pages.length, encrypted := d.is_encrypted }
      scan_py_pages (d.pages.take (min 3 d.pages.length)) a1

/-- Embeds PDFCompressor._analyze_pdf with its exception structure explicit:
file_size is stat-ed into the initial dict before any parsing; the pikepdf
arm runs inside the outer try, and any raise in it (open, a page access, the
root access) falls into the except which runs the pypdf arm on the partially
mutated analysis; a raise in the pypdf arm is swallowed. The function itself
is total: no parsing exception ever escapes. -/
def analyze_pdf (file_size : Nat) (pike : Option PikeOpened)
    (py : Option PyOpened) : PdfAnalysis :=
  let a0 : PdfAnalysis :=
    { pages := 0, has_images := false, has_forms := false,
      has_annots := false, encrypted := false, file_size := file_size }
  let s := pike_attempt pike a0
  if s.2 then s.1 else (py_attempt py s.1).1

/-- Whether a pypdf page-check outcome is a completed check that found an
image. -/
def image_found (o : Outcome Bool) : Bool :=
  match o with
  | .val true => true
  | _ => false

/-- Embeds PDFCompressor._choose_compression_method's decision core. The
analysis in the source cannot raise (see analyze_pdf), so the except branch
returning pikepdf is dead and the selector is this pure function. -/
def choose_compression_method (file_size : Nat) (analysis : PdfAnalysis)
    (tools : ToolAvailability) : Method :=
  if file_size > 10 * 1024 * 1024 ∧ analysis.has_images ∧ tools.ghostscript then
    .ghostscript
  else if analysis.has_forms ∨ analysis.has_annots then
    .pikepdf
  else if tools.qpdf then
    .qpdf
  else if tools.ghostscript then
    .ghostscript
  else
    .pikepdf

/-- The selector exactly as the specification words it, for refinement
comparison: five short-circuiting rules — big image-heavy file with the
rasterization backend available, then forms or annotations, then the
structural-rewrite backend, then rasterization, else the structure
preserving library backend. -/
def choose_method_from_spec (file_size : Nat) (analysis : PdfAnalysis)
    (tools : ToolAvailability) : Method :=
  if file_size > 10 * 1024 * 1024 ∧ analysis.has_images ∧ tools.ghostscript then
    .ghostscript
  else if analysis.has_forms ∨ analysis.has_annots then
    .pikepdf
  else if tools.qpdf then
    .qpdf
  else if tools.ghostscript then
    .ghostscript
  else
    .pikepdf

/-- A Python float value as the savings code produces it: an exact rational
or positive infinity. Every float the claims inspect (ratios S/S and S/0,
percent values at 0 and 100, threshold comparisons) is exact in this model. -/
inductive FloatVal
  | finite (q : ℚ)
  | inf
deriving DecidableEq, Repr

/-- The savings dict computed by utils.calculate_savings. The formatted
size_reduction string appears only in a log line and is omitted. -/
structure SavingsReport where
  bytes_saved : ℤ
  percent_saved : ℚ
  compression_ratio : FloatVal
deriving DecidableEq, Repr

/-- Embeds utils.calculate_savings. -/
def calculate_savings (original_size compressed_size : Nat) : SavingsReport :=
  if original_size = 0 then
    { bytes_saved := 0, percent_saved := 0, compression_ratio := .finite 0 }
  else
    let bytes_saved : ℤ := (original_size : ℤ) - (compressed_size : ℤ)
    { bytes_saved := bytes_saved
      percent_saved := (bytes_saved : ℚ) / (original_size : ℚ) * 100
      compression_ratio :=
        if compressed_size > 0 then
          .finite ((original_size : ℚ) / (compressed_size : ℚ))
        else
          .inf }

/-- One-decimal rendering of a nonnegative rational, mirroring Python
percent formatting of a float; binary-float rounding is approximated by exact
rational rounding (the difference never reaches any claim). -/
def fmt1 (q : ℚ) : String :=
  let t : ℤ := round (q * 10)
  toString (t / 10) ++ "." ++ toString (t % 10).natAbs

/-- Embeds utils.format_file_size: repeatedly divide by 1024 through the
unit list, rendering with one decimal. -/
def format_units : List String → ℚ → String
  | [], q => fmt1 q ++ " PB"
  | u :: us, q => if q < 1024 then fmt1 q ++ " " ++ u else format_units us (q / 1024)

/-- Embeds utils.format_file_size. -/
def format_file_size (bytes_size : Nat) : String :=
  format_units ["B", "KB", "MB", "GB", "TB"] (bytes_size : ℚ)

/-- A Python value as stored in the duck-typed result dicts. -/
inductive Value
  | vNone
  | vBool (b : Bool)
  | vInt (n : ℤ)
  | vNum (v : FloatVal)
  | vStr (s : String)
deriving DecidableEq, Repr

/-- A Python dict keyed by strings, as the compressor result dicts are. -/
abbrev ResultDict := List (String × Value)

/-- Embeds PDFCompressor._error_result. -/
def error_result (error_message : String) : ResultDict :=
  [("success", .vBool false),
   ("input_path", .vNone),
   ("output_path", .vNone),
   ("size_before", .vInt 0),
   ("size_after", .vInt 0),
   ("bytes_saved", .vInt 0),
   ("percent_saved", .vInt 0),
   ("compression_ratio", .vInt 0),
   ("message", .vStr ""),
   ("error", .vStr error_message)]

/-- Embeds PDFCompressor._success_result. -/
def success_result (input_path output_path : String)
    (size_before size_after : Nat) (message : String) : ResultDict :=
  let savings := calculate_savings size_before size_after
  [("success", .vBool true),
   ("input_path", .vStr input_path),
   ("output_path", .vStr output_path),
   ("size_before", .vInt (size_before : ℤ)),
   ("size_after", .vInt (size_after : ℤ)),
   ("bytes_saved", .vInt savings.bytes_saved),
   ("percent_saved", .vNum (.finite savings.percent_saved)),
   ("compression_ratio", .vNum savings.compression_ratio),
   ("message", .vStr message),
   ("error", .vNone)]

/-- The bare success dict each backend adapter returns on success. -/
def ok_dict (name : String) : ResultDict :=
  [("success", .vBool true), ("method", .vStr name), ("error", .vNone)]

/-- Truthiness of the success entry of a result dict, as Python reads it. -/
def rd_success (r : ResultDict) : Bool :=
  match r.lookup "success" with
  | some (.vBool b) => b
  | _ => false

/-- Outcome of one adapter call as _apply_compression observes it: the
adapter either returns a result dict or raises. wrote records the output
file the attempt left behind, if any (size in bytes); a raising attempt
leaves none. -/
inductive AdapterRes
  | returned (r : ResultDict) (wrote : Option Nat)
  | raised (msg : String)
deriving DecidableEq, Repr

/-- Environment outcome of one subprocess.run of an external tool. -/
inductive SubprocRun
  | completed (returncode : ℤ) (stderr : String) (wrote : Option Nat)
  | timedOut
  | spawnFailed (msg : String)
deriving DecidableEq, Repr

/-- Environment outcome of one in-process library compression attempt. -/
inductive LibRun
  | ok (wrote : Option Nat)
  | raisedDuring (msg : String)
deriving DecidableEq, Repr

/-- Environment outcome of one _compress_with_ghostscript call. Unlike the
other adapters, its preamble — the compression_settings.get lookups and
command building before the try block — is not exception-protected, and it
does raise in reality (an AttributeError when the configured level's
settings are a YAML null, which Config.get returns as stored instead of the
dict default). settingsRaise models that; sub is the protected subprocess
part. -/
inductive GsRun
  | settingsRaise (msg : String)
  | sub (run : SubprocRun)
deriving DecidableEq, Repr

/-- Embeds PDFCompressor._compress_with_ghostscript: a raise in the
unprotected settings preamble escapes the adapter; otherwise exit 0 is
success, a non-zero exit reports stderr or, when stderr is empty, a message
naming the exit code, and a timeout and a spawn failure get their own
messages, all caught inside the adapter. -/
def compress_with_ghostscript (run : GsRun) : AdapterRes :=
  match run with
  | .settingsRaise msg => .raised msg
  | .sub (.completed code stderr wrote) =>
      if code = 0 then .returned (ok_dict "ghostscript") wrote
      else
        .returned (error_result ("Ghostscript ошибка: " ++
          (if stderr = "" then "Ghostscript завершился с кодом " ++ toString code
           else stderr))) wrote
  | .sub .timedOut =>
      .returned (error_result "Ghostscript превысил время ожидания (5 мин)") none
  | .sub (.spawnFailed msg) =>
      .returned (error_result ("Ошибка запуска Ghostscript: " ++ msg)) none

/-- Whether a character list begins with the given pattern. -/
def starts_with : List Char → List Char → Bool
  | _, [] => true
  | [], _ :: _ => false
  | c :: cs, p :: ps => c = p && starts_with cs ps

/-- Whether the pattern occurs anywhere in the character list. -/
def has_substring_aux : List Char → List Char → Bool
  | [], pat => pat.isEmpty
  | c :: cs, pat => starts_with (c :: cs) pat || has_substring_aux cs pat

/-- Whether one string occurs inside another: the Python in operator on
strings, used for the qpdf warning marker test. -/
def contains_substring (s pat : String) : Bool :=
  has_substring_aux s.data pat.data

/-- Embeds PDFCompressor._compress_with_qpdf: exit 0 is success, exit 3 or a
stderr containing the warning marker is success with warnings; other exits
are errors; timeouts and spawn failures get their own messages. -/
def compress_with_qpdf (run : SubprocRun) : AdapterRes :=
  match run with
  | .completed code stderr wrote =>
      if code = 0 then .returned (ok_dict "qpdf") wrote
      else if code = 3 ∨ contains_substring stderr "operation succeeded with warnings" then
        .returned (ok_dict "qpdf") wrote
      else
        .returned (error_result ("QPDF ошибка: " ++
          (if stderr = "" then "QPDF завершился с кодом " ++ toString code
           else stderr))) wrote
  | .timedOut =>
      .returned (error_result "QPDF превысил время ожидания") none
  | .spawnFailed msg =>
      .returned (error_result ("Ошибка запуска QPDF: " ++ msg)) none

/-- Embeds PDFCompressor._compress_with_pikepdf: the whole body is inside a
try/except, so the adapter returns a success dict or a prefixed error dict
and never raises. -/
def compress_with_pikepdf (run : LibRun) : AdapterRes :=
  match run with
  | .ok wrote => .returned (ok_dict "pikepdf") wrote
  | .raisedDuring msg => .returned (error_result ("Pikepdf ошибка: " ++ msg)) none

/-- Embeds PDFCompressor._compress_with_pypdf, same shape as the pikepdf
adapter. -/
def compress_with_pypdf (run : LibRun) : AdapterRes :=
  match run with
  | .ok wrote => .returned (ok_dict "pypdf") wrote
  | .raisedDuring msg => .returned (error_result ("PyPDF ошибка: " ++ msg)) none

/-- Environment for one whole compression attempt phase: the outcome each
backend would have if invoked. -/
structure BackendEnv where
  gs : GsRun
  qp : SubprocRun
  pike : LibRun
  py : LibRun
deriving DecidableEq, Repr

/-- Runs the adapter for the given method against the environment. -/
def run_backend (env : BackendEnv) : Method → AdapterRes
  | .ghostscript => compress_with_ghostscript env.gs
  | .qpdf => compress_with_qpdf env.qp
  | .pikepdf => compress_with_pikepdf env.pike
  | .pypdf => compress_with_pypdf env.py

/-- The adapter _apply_compression's if/elif chain actually dispatches to:
ghostscript only when requested and available, qpdf only when requested and
available, pikepdf when requested, and the pypdf baseline otherwise. -/
def dispatch_target (tools : ToolAvailability) (method : Method) : Method :=
  if method = .ghostscript ∧ tools.ghostscript then .ghostscript
  else if method = .qpdf ∧ tools.qpdf then .qpdf
  else if method = .pikepdf then .pikepdf
  else .pypdf

/-- Embeds PDFCompressor._apply_compression over an abstract adapter-call
oracle. The dispatched adapter is called once; if it returns, that result is
returned unchanged (success or failure). If it raises and the requested
method was not pikepdf, exactly one fallback call to the pikepdf adapter is
made and its result returned; a raise there propagates (Except.error). If
the requested method was pikepdf, the aggregate error dict is returned. -/
def apply_compression (call : Method → AdapterRes) (tools : ToolAvailability)
    (method : Method) : Except String (ResultDict × Option Nat) :=
  match call (dispatch_target tools method) with
  | .returned r wrote => .ok (r, wrote)
  | .raised msg =>
      if method = .pikepdf then
        .ok (error_result ("Все методы сжатия не удались: " ++ msg), none)
      else
        match call .pikepdf with
        | .returned r wrote => .ok (r, wrote)
        | .raised msg2 => .error msg2

/-- The configuration values compress consults. -/
structure Config where
  max_file_size_mb : Nat
  min_file_size_kb : Nat
  min_compression_percent : ℚ
deriving DecidableEq, Repr

/-- What ends up at output_path after a compress call: nothing, the bytes a
backend wrote (with their size), or a verbatim copy of the original. -/
inductive OutputState
  | absent
  | fromBackend (size : Nat)
  | copyOfOriginal
deriving DecidableEq, Repr

/-- Embeds PDFCompressor.compress. Environment inputs: whether the input
exists and its size, the two parser outcomes feeding the analysis, and the
adapter-call oracle. Returns the result dict together with what was written
to output_path. The branches mirror the source: missing input, over-max and
too-small checks, method choice, one _apply_compression phase, then the
success-and-output-exists check, the minimum-compression verbatim-copy
fallback, and the exception handler wrapping the attempt phase. -/
def compress (cfg : Config) (tools : ToolAvailability)
    (input_path output_path : String) (input_exists : Bool) (input_size : Nat)
    (pike : Option PikeOpened) (py : Option PyOpened)
    (call : Method → AdapterRes) : ResultDict × OutputState :=
  if ¬ input_exists then
    (error_result ("Входной файл не найден: " ++ input_path), .absent)
  else if input_size > cfg.max_file_size_mb * 1024 * 1024 then
    (error_result ("Файл слишком большой: " ++ format_file_size input_size ++
      " > " ++ toString cfg.max_file_size_mb ++ " MB"), .absent)
  else if input_size < cfg.min_file_size_kb * 1024 then
    (success_result input_path output_path input_size input_size
      "Файл слишком маленький для сжатия - скопирован без изменений", .absent)
  else
    let analysis := analyze_pdf input_size pike py
    let method := choose_compression_method input_size analysis tools
    match apply_compression call tools method with
    | .error msg => (error_result ("Ошибка сжатия: " ++ msg), .absent)
    | .ok (r, wrote) =>
        match wrote with
        | some n =>
            if rd_success r then
              if (calculate_savings input_size n).percent_saved
                  < cfg.min_compression_percent then
                (success_result input_path output_path input_size input_size
                  ("Сжато методом " ++ method.pyName), .copyOfOriginal)
              else
                (success_result input_path output_path input_size n
                  ("Сжато методом " ++ method.pyName), .fromBackend n)
            else (r, .fromBackend n)
        | none => (r, .absent)

/-- A result dict an adapter may legitimately return: either the bare
success dict for some method name, or an error dict with a non-empty
message. -/
def DictOK (r : ResultDict) : Prop :=
  (∃ name, r = ok_dict name) ∨ ∃ msg, msg ≠ "" ∧ r = error_result msg

/-- Every value an adapter call can yield is a returned DictOK dict or a
raise. -/
def AdapterResOK : AdapterRes → Prop
  | .returned r _ => DictOK r
  | .raised _ => True

/-- The result-dict invariant of claim C9: a failed dict carries a non-empty
error string, an empty message and zeroed metrics; a successful dict carries
a null error. -/
def ResultOK (r : ResultDict) : Prop :=
  (r.lookup "success" = some (.vBool false) →
    ∃ msg, msg ≠ "" ∧
      r.lookup "error" = some (.vStr msg) ∧
      r.lookup "message" = some (.vStr "") ∧
      r.lookup "size_before" = some (.vInt 0) ∧
      r.lookup "size_after" = some (.vInt 0) ∧
      r.lookup "bytes_saved" = some (.vInt 0) ∧
      r.lookup "percent_saved" = some (.vInt 0) ∧
      r.lookup "compression_ratio" = some (.vInt 0)) ∧
  (r.lookup "success" = some (.vBool true) → r.lookup "error" = some .vNone)

/-! Helper lemmas about the result dicts. -/

lemma append_ne_empty_of_length_pos (s t : String) (h : 0 < s.length) :
    s ++ t ≠ "" := by
  intro he
  have hl := congrArg String.length he
  rw [String.length_append] at hl
  simp only [String.length_empty] at hl
  omega

lemma append_ne_empty_of_right_length_pos (s t : String) (h : 0 < t.length) :
    s ++ t ≠ "" := by
  intro he
  have hl := congrArg String.length he
  rw [String.length_append] at hl
  simp only [String.length_empty] at hl
  omega

lemma dictOK_ok (name : String) : DictOK (ok_dict name) :=
  Or.inl ⟨name, rfl⟩

lemma dictOK_err {msg : String} (h : msg ≠ "") : DictOK (error_result msg) :=
  Or.inr ⟨msg, h, rfl⟩

lemma dictOK_err_append (s t : String) (h : 0 < s.length) :
    DictOK (error_result (s ++ t)) :=
  dictOK_err (append_ne_empty_of_length_pos s t h)

/-- Each concrete adapter satisfies the adapter-result contract, whatever
its environment does. -/
lemma run_backend_ok (env : BackendEnv) (m : Method) :
    AdapterResOK (run_backend env m) := by
  cases m <;> simp only [run_backend]
  case ghostscript =>
    cases env.gs with
    | settingsRaise msg => trivial
    | sub run =>
        cases run with
        | completed code stderr wrote =>
            simp only [compress_with_ghostscript]
            split
            · exact dictOK_ok _
            · exact dictOK_err_append _ _ (by decide)
        | timedOut => exact dictOK_err (by decide)
        | spawnFailed msg => exact dictOK_err_append _ _ (by decide)
  case qpdf =>
    cases env.qp with
    | completed code stderr wrote =>
        simp only [compress_with_qpdf]
        split
        · exact dictOK_ok _
        · split
          · exact dictOK_ok _
          · exact dictOK_err_append _ _ (by decide)
    | timedOut => exact dictOK_err (by decide)
    | spawnFailed msg => exact dictOK_err_append _ _ (by decide)
  case pikepdf =>
    cases env.pike with
    | ok wrote => exact dictOK_ok _
    | raisedDuring msg => exact dictOK_err_append _ _ (by decide)
  case pypdf =>
    cases env.py with
    | ok wrote => exact dictOK_ok _
    | raisedDuring msg => exact dictOK_err_append _ _ (by decide)

lemma resultOK_error {msg : String} (h : msg ≠ "") :
    ResultOK (error_result msg) := by
  constructor
  · intro _
    exact ⟨msg, h, rfl, rfl, rfl, rfl, rfl, rfl, rfl⟩
  · intro hcontra
    simp [error_result, List.lookup] at hcontra

lemma resultOK_success (ip op : String) (sb sa : Nat) (m : String) :
    ResultOK (success_result ip op sb sa m) := by
  constructor
  · intro hcontra
    simp [success_result, List.lookup] at hcontra
  · intro _
    rfl

lemma resultOK_ok_dict (name : String) : ResultOK (ok_dict name) := by
  constructor
  · intro hcontra
    simp [ok_dict, List.lookup] at hcontra
  · intro _
    rfl

lemma resultOK_of_dictOK {r : ResultDict} (h : DictOK r) : ResultOK r := by
  rcases h with ⟨name, rfl⟩ | ⟨msg, hm, rfl⟩
  · exact resultOK_ok_dict name
  · exact resultOK_error hm

/-- Any dict _apply_compression hands back satisfies the dict contract,
provided every adapter does. -/
lemma apply_compression_dictOK {call : Method → AdapterRes}
    {tools : ToolAvailability} {m : Method} {r : ResultDict} {w : Option Nat}
    (hcall : ∀ m', AdapterResOK (call m'))
    (h : apply_compression call tools m = .ok (r, w)) : DictOK r := by
  unfold apply_compression at h
  cases hc : call (dispatch_target tools m) with
  | returned r' w' =>
      rw [hc] at h
      have hok := hcall (dispatch_target tools m)
      rw [hc] at hok
      cases h
      exact hok
  | raised msg =>
      rw [hc] at h
      dsimp only at h
      by_cases hm : m = Method.pikepdf
      · rw [if_pos hm] at h
        cases h
        exact dictOK_err_append _ _ (by decide)
      · rw [if_neg hm] at h
        cases hc2 : call .pikepdf with
        | returned r' w' =>
            rw [hc2] at h
            have hok := hcall .pikepdf
            rw [hc2] at hok
            cases h
            exact hok
        | raised msg2 => rw [hc2] at h; cases h

/-- When the attempt phase returns a successful dict and an output file of
size n exists, compress takes the success path: a fresh success_result with
the chosen method named in the message, discarding the output for a verbatim
copy exactly when the savings fall below the configured minimum. -/
lemma compress_success_path (cfg : Config) (tools : ToolAvailability)
    (ip op : String) (size : Nat) (pike : Option PikeOpened)
    (py : Option PyOpened) (call : Method → AdapterRes) (r : ResultDict)
    (n : Nat)
    (hmax : ¬ size > cfg.max_file_size_mb * 1024 * 1024)
    (hmin : ¬ size < cfg.min_file_size_kb * 1024)
    (happly : apply_compression call tools
      (choose_compression_method size (analyze_pdf size pike py) tools)
        = .ok (r, some n))
    (hs : rd_success r = true) :
    compress cfg tools ip op true size pike py call =
      if (calculate_savings size n).percent_saved < cfg.min_compression_percent
      then
        (success_result ip op size size ("Сжато методом " ++
          (choose_compression_method size (analyze_pdf size pike py)
            tools).pyName), .copyOfOriginal)
      else
        (success_result ip op size n ("Сжато методом " ++
          (choose_compression_method size (analyze_pdf size pike py)
            tools).pyName), .fromBackend n) := by
  unfold compress
  rw [if_neg (by simp), if_neg hmax, if_neg hmin]
  simp only [happly, hs, eq_self_iff_true, if_true]

/-- C9: every dict compress returns satisfies the result invariant: a failed
dict carries a non-empty error string, an empty message and zeroed size,
bytes, percent and ratio fields; a successful dict carries a null error.
This covers every return path: missing input, over-max rejection, too-small
short-circuit, the success path, a failed or output-less attempt returned
verbatim, and the exception handler. -/
theorem compress_result_dict_invariant (cfg : Config)
    (tools : ToolAvailability) (ip op : String) (ex : Bool) (size : Nat)
    (pike : Option PikeOpened) (py : Option PyOpened)
    (call : Method → AdapterRes) (hcall : ∀ m, AdapterResOK (call m)) :
    ResultOK (compress cfg tools ip op ex size pike py call).1 := by
  unfold compress
  by_cases hex : ex
  · rw [if_neg (by simp [hex])]
    split
    · exact resultOK_error (append_ne_empty_of_right_length_pos _ _ (by decide))
    · split
      · exact resultOK_success _ _ _ _ _
      · dsimp only
        cases happly : apply_compression call tools
            (choose_compression_method size (analyze_pdf size pike py)
              tools) with
        | error msg =>
            exact resultOK_error (append_ne_empty_of_length_pos _ _ (by decide))
        | ok pair =>
            obtain ⟨r, wrote⟩ := pair
            have hd : DictOK r := apply_compression_dictOK hcall happly
            cases wrote with
            | some n =>
                dsimp only
                by_cases hs : rd_success r = true
                · rw [if_pos hs]
                  split
                  · exact resultOK_success _ _ _ _ _
                  · exact resultOK_success _ _ _ _ _
                · rw [if_neg hs]
                  exact resultOK_of_dictOK hd
            | none => exact resultOK_of_dictOK hd
  · rw [if_pos (by simp [hex])]
    exact resultOK_error (append_ne_empty_of_length_pos _ _ (by decide))

/-- Witness for C9 at a concrete run: qpdf fails with exit 2, the chosen
method dispatches there, and the failed dict verbatim-return path is hit. -/
theorem compress_result_dict_invariant_witness :
    ResultOK (compress ⟨200, 100, 5⟩ ⟨true, true, true, true⟩ "in.pdf"
      "out.pdf" true 204800
      (some ⟨[⟨.val false, .val false⟩], .val false⟩) none
      (run_backend ⟨.sub (.completed 0 "" none), .completed 2 "broken" none,
        .ok (some 1000), .ok (some 900)⟩)).1 :=
  compress_result_dict_invariant _ _ _ _ _ _ _ _ _
    (fun m => run_backend_ok _ m)

/-- C1 is false on the code: here qpdf is chosen, its adapter returns a
failed outcome, and compress returns that failure at once even though the
pikepdf adapter is available and would succeed — no multi-method attempt
list is walked after a failed outcome. -/
theorem claim1_failed_outcome_counterexample :
    compress ⟨200, 100, 5⟩ ⟨true, true, true, true⟩ "in.pdf" "out.pdf" true
        204800 (some ⟨[⟨.val false, .val false⟩], .val false⟩) none
        (run_backend ⟨.sub (.completed 0 "" none), .completed 2 "broken" none,
          .ok (some 1000), .ok (some 900)⟩)
      = (error_result ("QPDF ошибка: " ++ "broken"), .absent) ∧
    run_backend ⟨.sub (.completed 0 "" none), .completed 2 "broken" none,
        .ok (some 1000), .ok (some 900)⟩ .pikepdf
      = .returned (ok_dict "pikepdf") (some 1000) := by
  exact ⟨rfl, rfl⟩

/-- C1 (amended): the attempting phase makes a single adapter call for the
chosen method; a returned outcome — failed or successful — is final, with no
further methods tried. Only an adapter exception triggers a fallback, and
that fallback is exactly one pikepdf attempt (whose own exception
propagates); an exception when pikepdf itself was chosen yields the
aggregate failure dict. -/
theorem apply_compression_single_attempt (call : Method → AdapterRes)
    (tools : ToolAvailability) (m : Method) :
    (∀ r w, call (dispatch_target tools m) = .returned r w →
      apply_compression call tools m = .ok (r, w)) ∧
    (∀ msg, call (dispatch_target tools m) = .raised msg →
      m ≠ .pikepdf →
      apply_compression call tools m =
        match call .pikepdf with
        | .returned r w => .ok (r, w)
        | .raised msg2 => .error msg2) ∧
    (∀ msg, call (dispatch_target tools m) = .raised msg →
      m = .pikepdf →
      apply_compression call tools m =
        .ok (error_result ("Все методы сжатия не удались: " ++ msg), none)) := by
  refine ⟨?_, ?_, ?_⟩
  · intro r w h
    unfold apply_compression
    rw [h]
  · intro msg h hm
    unfold apply_compression
    rw [h]
    dsimp only
    rw [if_neg hm]
  · intro msg h hm
    unfold apply_compression
    rw [h]
    dsimp only
    rw [if_pos hm]

/-- Witness for the amended C1: with every adapter raising, a qpdf request
falls back to pikepdf once and the exception there propagates. -/
theorem apply_compression_single_attempt_witness :
    apply_compression (fun _ => .raised "boom") ⟨true, true, true, true⟩
      .qpdf = .error "boom" := by
  have h := (apply_compression_single_attempt (fun _ => .raised "boom")
    ⟨true, true, true, true⟩ .qpdf).2.1 "boom" rfl (by decide)
  exact h

/-- C3: the too-small short-circuit at its failing input. An existing
51200-byte input under the 100-KiB minimum yields success with equal sizes
and zero bytes saved — but nothing is ever written to output_path, although
the claim (and the result's own message, which says the file was copied
unchanged) promise a verbatim copy there. -/
theorem compress_small_file_not_copied :
    compress ⟨200, 100, 5⟩ ⟨true, true, true, true⟩ "in.pdf" "out.pdf" true
        51200 none none (fun _ => .raised "unused")
      = (success_result "in.pdf" "out.pdf" 51200 51200
          "Файл слишком маленький для сжатия - скопирован без изменений",
         .absent) ∧
    ((compress ⟨200, 100, 5⟩ ⟨true, true, true, true⟩ "in.pdf" "out.pdf" true
        51200 none none (fun _ => .raised "unused")).1.lookup "success"
      = some (.vBool true)) ∧
    ((compress ⟨200, 100, 5⟩ ⟨true, true, true, true⟩ "in.pdf" "out.pdf" true
        51200 none none (fun _ => .raised "unused")).1.lookup "size_before"
      = some (.vInt 51200)) ∧
    ((compress ⟨200, 100, 5⟩ ⟨true, true, true, true⟩ "in.pdf" "out.pdf" true
        51200 none none (fun _ => .raised "unused")).1.lookup "size_after"
      = some (.vInt 51200)) ∧
    ((compress ⟨200, 100, 5⟩ ⟨true, true, true, true⟩ "in.pdf" "out.pdf" true
        51200 none none (fun _ => .raised "unused")).1.lookup "bytes_saved"
      = some (.vInt 0)) ∧
    ((compress ⟨200, 100, 5⟩ ⟨true, true, true, true⟩ "in.pdf" "out.pdf" true
        51200 none none (fun _ => .raised "unused")).2
      = OutputState.absent) := by
  exact ⟨rfl, rfl, rfl, rfl, rfl, rfl⟩

/-- The bytes_saved entry of a success_result is the computed savings. -/
lemma success_result_lookup_bytes (ip op : String) (sb sa : Nat)
    (m : String) :
    (success_result ip op sb sa m).lookup "bytes_saved"
      = some (.vInt (calculate_savings sb sa).bytes_saved) := rfl

/-- Compressing a size onto itself saves nothing. -/
lemma calculate_savings_self_bytes (s : Nat) :
    (calculate_savings s s).bytes_saved = 0 := by
  by_cases hz : s = 0 <;> simp [calculate_savings, hz]

/-- C4: a successful backend whose savings fall below the configured
minimum-compression threshold has its output discarded for a verbatim copy
of the original, and the call still returns success with size_after equal
to size_before, zero bytes saved, and a message naming the method. -/
theorem compress_below_min_compression_discards (cfg : Config)
    (tools : ToolAvailability) (ip op : String) (size : Nat)
    (pike : Option PikeOpened) (py : Option PyOpened)
    (call : Method → AdapterRes) (r : ResultDict) (n : Nat)
    (hmax : ¬ size > cfg.max_file_size_mb * 1024 * 1024)
    (hmin : ¬ size < cfg.min_file_size_kb * 1024)
    (happly : apply_compression call tools
      (choose_compression_method size (analyze_pdf size pike py) tools)
        = .ok (r, some n))
    (hs : rd_success r = true)
    (hpct : (calculate_savings size n).percent_saved
      < cfg.min_compression_percent) :
    compress cfg tools ip op true size pike py call
      = (success_result ip op size size ("Сжато методом " ++
          (choose_compression_method size (analyze_pdf size pike py)
            tools).pyName), .copyOfOriginal) ∧
    ((compress cfg tools ip op true size pike py call).1.lookup "success"
      = some (.vBool true)) ∧
    ((compress cfg tools ip op true size pike py call).1.lookup "size_before"
      = some (.vInt (size : ℤ))) ∧
    ((compress cfg tools ip op true size pike py call).1.lookup "size_after"
      = some (.vInt (size : ℤ))) ∧
    ((compress cfg tools ip op true size pike py call).1.lookup "bytes_saved"
      = some (.vInt 0)) ∧
    ((compress cfg tools ip op true size pike py call).2
      = OutputState.copyOfOriginal) := by
  have hsp := compress_success_path cfg tools ip op size pike py call r n
    hmax hmin happly hs
  rw [hsp, if_pos hpct]
  refine ⟨rfl, rfl, rfl, rfl, ?_, rfl⟩
  rw [success_result_lookup_bytes, calculate_savings_self_bytes]

/-- Witness for C4: a 204800-byte input compressed to 200704 bytes is only
2 percent smaller, under the 5 percent minimum, so the copy fallback fires. -/
theorem compress_below_min_compression_discards_witness :
    compress ⟨200, 100, 5⟩ ⟨true, true, true, true⟩ "a.pdf" "b.pdf" true
        204800 none none
        (fun _ => .returned (ok_dict "qpdf") (some 200704))
      = (success_result "a.pdf" "b.pdf" 204800 204800 ("Сжато методом " ++
          (choose_compression_method 204800 (analyze_pdf 204800 none none)
            ⟨true, true, true, true⟩).pyName), .copyOfOriginal) ∧
    ((compress ⟨200, 100, 5⟩ ⟨true, true, true, true⟩ "a.pdf" "b.pdf" true
        204800 none none
        (fun _ => .returned (ok_dict "qpdf") (some 200704))).1.lookup
      "success" = some (.vBool true)) ∧
    ((compress ⟨200, 100, 5⟩ ⟨true, true, true, true⟩ "a.pdf" "b.pdf" true
        204800 none none
        (fun _ => .returned (ok_dict "qpdf") (some 200704))).1.lookup
      "size_before" = some (.vInt (204800 : ℤ))) ∧
    ((compress ⟨200, 100, 5⟩ ⟨true, true, true, true⟩ "a.pdf" "b.pdf" true
        204800 none none
        (fun _ => .returned (ok_dict "qpdf") (some 200704))).1.lookup
      "size_after" = some (.vInt (204800 : ℤ))) ∧
    ((compress ⟨200, 100, 5⟩ ⟨true, true, true, true⟩ "a.pdf" "b.pdf" true
        204800 none none
        (fun _ => .returned (ok_dict "qpdf") (some 200704))).1.lookup
      "bytes_saved" = some (.vInt 0)) ∧
    ((compress ⟨200, 100, 5⟩ ⟨true, true, true, true⟩ "a.pdf" "b.pdf" true
        204800 none none
        (fun _ => .returned (ok_dict "qpdf") (some 200704))).2
      = OutputState.copyOfOriginal) :=
  compress_below_min_compression_discards ⟨200, 100, 5⟩
    ⟨true, true, true, true⟩ "a.pdf" "b.pdf" 204800 none none
    (fun _ => .returned (ok_dict "qpdf") (some 200704))
    (ok_dict "qpdf") 200704 (by decide) (by decide) rfl rfl
    (by simp only [calculate_savings]; norm_num)

/-- C5 is false as universally stated: with forms detected AND qpdf
available, rule one still fires first — a file one byte over 10 MiB with
images and ghostscript available selects ghostscript, not pikepdf. -/
theorem claim5_forms_selector_counterexample :
    choose_compression_method (10 * 1024 * 1024 + 1)
        { pages := 1, has_images := true, has_forms := true,
          has_annots := false, encrypted := false,
          file_size := 10 * 1024 * 1024 + 1 }
        ⟨true, true, true, true⟩ = .ghostscript ∧
    Method.ghostscript ≠ .pikepdf ∧
    (PdfAnalysis.has_forms
      { pages := 1, has_images := true, has_forms := true,
        has_annots := false, encrypted := false,
        file_size := 10 * 1024 * 1024 + 1 } = true) ∧
    ToolAvailability.qpdf ⟨true, true, true, true⟩ = true := by
  decide

/-- C5 (amended): the selector implements exactly the decision order the
specification states (it refines the spec-worded selector), and with forms
detected and qpdf available it never returns qpdf: it returns pikepdf
unless rule one applies — size over 10 MiB, images present and ghostscript
available — in which case it returns ghostscript. -/
theorem choose_method_refines_spec (fs : Nat) (a : PdfAnalysis)
    (t : ToolAvailability) :
    choose_compression_method fs a t = choose_method_from_spec fs a t ∧
    (a.has_forms = true → t.qpdf = true →
      choose_compression_method fs a t ≠ .qpdf ∧
      (choose_compression_method fs a t = .pikepdf ∨
        (choose_compression_method fs a t = .ghostscript ∧
          fs > 10 * 1024 * 1024 ∧ a.has_images = true ∧
          t.ghostscript = true))) := by
  constructor
  · rfl
  · intro hf hq
    unfold choose_compression_method
    by_cases h1 : fs > 10 * 1024 * 1024 ∧ a.has_images = true ∧
        t.ghostscript = true
    · rw [if_pos h1]
      exact ⟨by decide, Or.inr ⟨rfl, h1⟩⟩
    · rw [if_neg h1, if_pos (Or.inl hf)]
      exact ⟨by decide, Or.inl rfl⟩

/-- Witness for the amended C5 at a small form-bearing file. -/
theorem choose_method_refines_spec_witness :
    (choose_compression_method 1000
        { pages := 2, has_images := false, has_forms := true,
          has_annots := false, encrypted := false, file_size := 1000 }
        ⟨true, true, true, true⟩
      = choose_method_from_spec 1000
          { pages := 2, has_images := false, has_forms := true,
            has_annots := false, encrypted := false, file_size := 1000 }
          ⟨true, true, true, true⟩) ∧
    (choose_compression_method 1000
        { pages := 2, has_images := false, has_forms := true,
          has_annots := false, encrypted := false, file_size := 1000 }
        ⟨true, true, true, true⟩ ≠ .qpdf ∧
      (choose_compression_method 1000
          { pages := 2, has_images := false, has_forms := true,
            has_annots := false, encrypted := false, file_size := 1000 }
          ⟨true, true, true, true⟩ = .pikepdf ∨
        (choose_compression_method 1000
            { pages := 2, has_images := false, has_forms := true,
              has_annots := false, encrypted := false, file_size := 1000 }
            ⟨true, true, true, true⟩ = .ghostscript ∧
          1000 > 10 * 1024 * 1024 ∧
          PdfAnalysis.has_images
            { pages := 2, has_images := false, has_forms := true,
              has_annots := false, encrypted := false, file_size := 1000 }
            = true ∧
          ToolAvailability.ghostscript ⟨true, true, true, true⟩ = true))) := by
  have h := choose_method_refines_spec 1000
    { pages := 2, has_images := false, has_forms := true,
      has_annots := false, encrypted := false, file_size := 1000 }
    ⟨true, true, true, true⟩
  exact ⟨h.1, h.2 rfl rfl⟩

/-- C6 is false at S = 0: calculate_savings 0 0 hits the zero-original
guard and returns zero percent and a zero ratio, not 100 percent and
infinity. -/
theorem claim6_zero_original_counterexample :
    (calculate_savings 0 0).bytes_saved = 0 ∧
    (calculate_savings 0 0).percent_saved = 0 ∧
    SavingsReport.compression_ratio (calculate_savings 0 0) = .finite 0 ∧
    ¬ ((calculate_savings 0 0).percent_saved = 100 ∧
       SavingsReport.compression_ratio (calculate_savings 0 0)
         = FloatVal.inf) := by
  refine ⟨rfl, rfl, rfl, ?_⟩
  intro h
  have h1 := h.1
  simp only [calculate_savings, if_pos rfl] at h1
  norm_num at h1

/-- C6 (amended): for every strictly positive original size S, compressing
to zero bytes reports S bytes saved, 100 percent saved and an infinite
compression ratio. -/
theorem calculate_savings_zero_compressed (S : Nat) (h : 0 < S) :
    calculate_savings S 0 =
      { bytes_saved := (S : ℤ), percent_saved := 100,
        compression_ratio := FloatVal.inf } := by
  have hz : S ≠ 0 := Nat.pos_iff_ne_zero.mp h
  have hq : (S : ℚ) ≠ 0 := Nat.cast_ne_zero.mpr hz
  unfold calculate_savings
  rw [if_neg hz]
  simp only [SavingsReport.mk.injEq]
  refine ⟨by simp, ?_, by norm_num⟩
  push_cast
  field_simp

/-- Witness for the amended C6 at S = 7. -/
theorem calculate_savings_zero_compressed_witness :
    calculate_savings 7 0 =
      { bytes_saved := 7, percent_saved := 100,
        compression_ratio := FloatVal.inf } :=
  calculate_savings_zero_compressed 7 (by norm_num)

/-- C7: an existing input strictly over the configured maximum is rejected:
compress returns the descriptive failure dict, writes nothing to
output_path, and invokes no backend — the result is the same whatever every
adapter would do. -/
theorem compress_over_max_rejected (cfg : Config)
    (tools : ToolAvailability) (ip op : String) (size : Nat)
    (pike : Option PikeOpened) (py : Option PyOpened)
    (call : Method → AdapterRes)
    (h : size > cfg.max_file_size_mb * 1024 * 1024) :
    compress cfg tools ip op true size pike py call
      = (error_result ("Файл слишком большой: " ++ format_file_size size ++
          " > " ++ toString cfg.max_file_size_mb ++ " MB"), .absent) ∧
    rd_success (compress cfg tools ip op true size pike py call).1 = false ∧
    (compress cfg tools ip op true size pike py call).2
      = OutputState.absent ∧
    ("Файл слишком большой: " ++ format_file_size size ++ " > " ++
      toString cfg.max_file_size_mb ++ " MB") ≠ "" ∧
    (∀ other_call : Method → AdapterRes,
      compress cfg tools ip op true size pike py other_call
        = compress cfg tools ip op true size pike py call) := by
  have hbr : ∀ c : Method → AdapterRes,
      compress cfg tools ip op true size pike py c
        = (error_result ("Файл слишком большой: " ++ format_file_size size ++
            " > " ++ toString cfg.max_file_size_mb ++ " MB"), .absent) := by
    intro c
    unfold compress
    rw [if_neg (by simp), if_pos h]
  refine ⟨hbr call, ?_, ?_, ?_, ?_⟩
  · rw [hbr call]; rfl
  · rw [hbr call]
  · exact append_ne_empty_of_right_length_pos _ _ (by decide)
  · intro oc
    rw [hbr oc, hbr call]

/-- Witness for C7: a 2 MiB plus one byte file over a 2 MiB maximum. -/
theorem compress_over_max_rejected_witness :
    compress ⟨2, 100, 5⟩ ⟨true, true, true, true⟩ "big.pdf" "out.pdf" true
        2097153 none none (fun _ => .raised "unused")
      = (error_result ("Файл слишком большой: " ++
          format_file_size 2097153 ++ " > " ++ toString (2 : Nat) ++ " MB"),
         .absent) ∧
    rd_success (compress ⟨2, 100, 5⟩ ⟨true, true, true, true⟩ "big.pdf"
      "out.pdf" true 2097153 none none (fun _ => .raised "unused")).1
      = false ∧
    (compress ⟨2, 100, 5⟩ ⟨true, true, true, true⟩ "big.pdf" "out.pdf" true
      2097153 none none (fun _ => .raised "unused")).2
      = OutputState.absent ∧
    ("Файл слишком большой: " ++ format_file_size 2097153 ++ " > " ++
      toString (2 : Nat) ++ " MB") ≠ "" ∧
    (∀ other_call : Method → AdapterRes,
      compress ⟨2, 100, 5⟩ ⟨true, true, true, true⟩ "big.pdf" "out.pdf" true
          2097153 none none other_call
        = compress ⟨2, 100, 5⟩ ⟨true, true, true, true⟩ "big.pdf" "out.pdf"
            true 2097153 none none (fun _ => .raised "unused")) :=
  compress_over_max_rejected ⟨2, 100, 5⟩ ⟨true, true, true, true⟩ "big.pdf"
    "out.pdf" 2097153 none none (fun _ => .raised "unused") (by decide)

/-- The pikepdf page scan never touches file_size. -/
lemma scan_pike_pages_file_size (ps : List PikePage) (a : PdfAnalysis) :
    ((scan_pike_pages ps a).1).file_size = a.file_size := by
  induction ps generalizing a with
  | nil => rfl
  | cons p ps ih =>
      cases himg : p.image_scan with
      | raise => simp [scan_pike_pages, himg]
      | val found =>
          cases hann : p.annots_scan with
          | raise => cases found <;> simp [scan_pike_pages, himg, hann]
          | val ann =>
              cases found <;> cases ann <;>
                simp [scan_pike_pages, himg, hann, ih]

/-- The pikepdf arm never touches file_size. -/
lemma pike_attempt_file_size (doc : Option PikeOpened) (a : PdfAnalysis) :
    ((pike_attempt doc a).1).file_size = a.file_size := by
  cases doc with
  | none => rfl
  | some d =>
      have hscan := scan_pike_pages_file_size
        (d.pages.take (min 5 d.pages.length))
        { a with pages := d.pages.length, encrypted := false }
      unfold pike_attempt
      dsimp only
      split
      · cases hroot : d.root_acroform with
        | raise => simpa using hscan
        | val hasForm => cases hasForm <;> simpa using hscan
      · simpa using hscan

/-- The pypdf page scan never touches file_size. -/
lemma scan_py_pages_file_size (os : List (Outcome Bool)) (a : PdfAnalysis) :
    ((scan_py_pages os a).1).file_size = a.file_size := by
  induction os generalizing a with
  | nil => rfl
  | cons o os ih =>
      cases o with
      | raise => rfl
      | val b => cases b <;> simp [scan_py_pages, ih]

/-- The pypdf arm never touches file_size. -/
lemma py_attempt_file_size (doc : Option PyOpened) (a : PdfAnalysis) :
    ((py_attempt doc a).1).file_size = a.file_size := by
  cases doc with
  | none => rfl
  | some d =>
      unfold py_attempt
      dsimp only
      simpa using scan_py_pages_file_size
        (d.pages.take (min 3 d.pages.length))
        { a with pages := d.pages.length, encrypted := d.is_encrypted }

/-- The analyzer always reports the stat-ed size, whatever the parsers do. -/
lemma analyze_pdf_file_size (fs : Nat) (pike : Option PikeOpened)
    (py : Option PyOpened) :
    (analyze_pdf fs pike py).file_size = fs := by
  unfold analyze_pdf
  dsimp only
  split
  · rw [pike_attempt_file_size]
  · rw [py_attempt_file_size, pike_attempt_file_size]

/-- A raise-free pypdf scan sets has_images exactly when some scanned page
reports an image, and changes nothing else. -/
lemma scan_py_pages_no_raise (os : List (Outcome Bool)) (a : PdfAnalysis)
    (h : ∀ o ∈ os, o ≠ Outcome.raise) :
    (scan_py_pages os a).1 =
      { a with has_images := a.has_images || os.any image_found } := by
  induction os generalizing a with
  | nil =>
      cases a
      simp [scan_py_pages]
  | cons o os ih =>
      cases o with
      | raise => exact absurd rfl (h _ (List.mem_cons_self _ _))
      | val b =>
          cases b with
          | true =>
              cases a
              simp [scan_py_pages, image_found, List.any_cons]
          | false =>
              simp only [scan_py_pages]
              rw [ih _ (fun o ho => h o (List.mem_cons_of_mem _ ho))]
              cases a
              simp [image_found, List.any_cons]

/-- C8 is false on the code: pikepdf opens the file, records two pages and
the first page's image and annotation flags, then a damaged object on page
two raises; pypdf then fails at open. Both parsers raised, yet the returned
analysis keeps pages = 2, has_images = true and has_annots = true — not the
all-false zero-page default the claim promises for double failure. -/
theorem claim8_partial_mutation_counterexample :
    analyze_pdf 777
        (some ⟨[⟨.val true, .val true⟩, ⟨.raise, .val false⟩], .val false⟩)
        none
      = { pages := 2, has_images := true, has_forms := false,
          has_annots := true, encrypted := false, file_size := 777 } ∧
    (analyze_pdf 777
        (some ⟨[⟨.val true, .val true⟩, ⟨.raise, .val false⟩], .val false⟩)
        none).pages ≠ 0 ∧
    (analyze_pdf 777
        (some ⟨[⟨.val true, .val true⟩, ⟨.raise, .val false⟩], .val false⟩)
        none).has_annots = true := by
  exact ⟨rfl, by decide, rfl⟩

/-- C8 (amended): the analyzer is total over parser outcomes — no parsing
exception ever escapes — and file_size always carries the on-disk size.
When the primary parser fails at open, before writing any field, the
secondary raise-free pass is the reduced image-only scan of the first three
pages plus page count and encryption; when both parsers fail at open every
boolean field is false and the page count is zero. A raise after partial
mutation instead leaves the already-written fields in the returned
analysis. -/
theorem analyze_pdf_open_failure_fallback (fs : Nat)
    (pike : Option PikeOpened) (py : Option PyOpened) (d : PyOpened)
    (hd : ∀ o ∈ d.pages, o ≠ Outcome.raise) :
    (analyze_pdf fs pike py).file_size = fs ∧
    analyze_pdf fs none none =
      { pages := 0, has_images := false, has_forms := false,
        has_annots := false, encrypted := false, file_size := fs } ∧
    analyze_pdf fs none (some d) =
      { pages := d.pages.length,
        has_images := (d.pages.take (min 3 d.pages.length)).any image_found,
        has_forms := false, has_annots := false,
        encrypted := d.is_encrypted, file_size := fs } := by
  refine ⟨analyze_pdf_file_size fs pike py, rfl, ?_⟩
  have h3 : ∀ o ∈ d.pages.take (min 3 d.pages.length), o ≠ Outcome.raise :=
    fun o ho => hd o (List.take_subset _ _ ho)
  show (scan_py_pages (d.pages.take (min 3 d.pages.length))
      { pages := d.pages.length, has_images := false, has_forms := false,
        has_annots := false, encrypted := d.is_encrypted,
        file_size := fs }).1 = _
  rw [scan_py_pages_no_raise _ _ h3]
  simp

/-- Witness for the amended C8: a parsed one-page pikepdf doc for the
file_size part, and a two-page encrypted pypdf fallback doc whose second
page has an image. -/
theorem analyze_pdf_open_failure_fallback_witness :
    (analyze_pdf 555 (some ⟨[⟨.val false, .val false⟩], .val false⟩)
      none).file_size = 555 ∧
    analyze_pdf 555 none none =
      { pages := 0, has_images := false, has_forms := false,
        has_annots := false, encrypted := false, file_size := 555 } ∧
    analyze_pdf 555 none (some ⟨[.val false, .val true], true⟩) =
      { pages := 2, has_images := true, has_forms := false,
        has_annots := false, encrypted := true, file_size := 555 } :=
  analyze_pdf_open_failure_fallback 555
    (some ⟨[⟨.val false, .val false⟩], .val false⟩) none
    ⟨[.val false, .val true], true⟩ (by decide)

/-- C10: over every availability map the prober can produce (the two
library backends always available), the selector never returns the pypdf
baseline, it returns an external tool only when that tool probed available,
and consequently the dispatch inside the attempt phase never reaches the
pypdf fallback branch for a selector-produced method. -/
theorem selector_avoids_baseline (fs : Nat) (a : PdfAnalysis)
    (gs_probe qpdf_probe : Bool) :
    choose_compression_method fs a
      (check_available_tools gs_probe qpdf_probe) ≠ .pypdf ∧
    dispatch_target (check_available_tools gs_probe qpdf_probe)
      (choose_compression_method fs a
        (check_available_tools gs_probe qpdf_probe)) ≠ .pypdf ∧
    ((choose_compression_method fs a
        (check_available_tools gs_probe qpdf_probe) = .ghostscript ∧
      gs_probe = true) ∨
     (choose_compression_method fs a
        (check_available_tools gs_probe qpdf_probe) = .qpdf ∧
      qpdf_probe = true) ∨
     choose_compression_method fs a
       (check_available_tools gs_probe qpdf_probe) = .pikepdf) := by
  unfold choose_compression_method check_available_tools dispatch_target
  split_ifs <;> simp_all

end PdfCompressor
